import Mathlib

/-!
Verification development for the RIS Live streaming client (`rislive.py`).
Python strings are modelled as lists of characters (`Str`); Python-level
string operations used by the source (`str.split(",")`, `str.strip()`,
`str.strip("^$")`, `int(...)`) are embedded explicitly below.  The model
restricts `\d`, `int` digits and whitespace to their ASCII forms.
-/

/-- Python strings, modelled as lists of characters. -/
abbrev Str := List Char

/-- Model of Python `value.split(",")`: splitting on every comma, keeping
empty pieces, so that the empty string yields `[[]]`. -/
def splitOnComma : Str → List Str
  | [] => [[]]
  | c :: cs =>
    match splitOnComma cs with
    | [] => [[]]
    | t :: ts => if c = ',' then [] :: t :: ts else (c :: t) :: ts

/-- Model of Python `s.strip(chars)`: remove characters belonging to `cs`
from both ends of `s` (any number, any mix), leaving the middle intact. -/
def pyStripChars (cs : List Char) (s : Str) : Str :=
  ((s.dropWhile (fun c => decide (c ∈ cs))).reverse.dropWhile
    (fun c => decide (c ∈ cs))).reverse

/-- The ASCII whitespace characters stripped by Python `str.strip()`. -/
def pyWs : List Char := [' ', '\t', '\n', '\r', Char.ofNat 11, Char.ofNat 12]

/-- Model of Python `s.strip()` (ASCII whitespace). -/
def trimWs (s : Str) : Str := pyStripChars pyWs s

/-- Digit run accepted by Python `int`, with single underscores allowed
between digits.  `acc` is the value read so far; `afterUnd` records that the
previous character was an underscore (which must be followed by a digit). -/
def decDigitsGo (acc : Nat) (afterUnd : Bool) : List Char → Option Nat
  | [] => if afterUnd then none else some acc
  | c :: cs =>
    if c.isDigit then decDigitsGo (acc * 10 + (c.toNat - 48)) false cs
    else if c = '_' then (if afterUnd then none else decDigitsGo acc true cs)
    else none

/-- Nonempty decimal digit run (underscores between digits allowed),
as accepted by Python `int` after sign processing. -/
def decDigits : List Char → Option Nat
  | [] => none
  | c :: cs =>
    if c.isDigit then decDigitsGo (c.toNat - 48) false cs else none

/-- Model of Python `int(s)` for base 10: surrounding whitespace stripped,
optional single sign, then digits with optional underscores between them. -/
def pyInt? (s : Str) : Option Int :=
  match trimWs s with
  | '+' :: rest => (decDigits rest).map (fun n => (n : Int))
  | '-' :: rest => (decDigits rest).map (fun n => -(n : Int))
  | rest => (decDigits rest).map (fun n => (n : Int))

/-- The error message built by `validate_rrc` for an offending token. -/
def mkRrcError (tok : Str) : Str :=
  ("Invalid RRC format '").data ++ tok ++
    ("'. Must be in format 'rrcXX' where X is a digit").data

/-- Model of `re.match(r"^rrc\d\x7b2\x7d$", rrc)` succeeding: the token is
exactly `rrc` followed by two ASCII digits. -/
def rrcTokenOk : Str → Bool
  | [a, b, c, d, e] => a == 'r' && b == 'r' && c == 'c' && d.isDigit && e.isDigit
  | _ => false

/-- Embedding of `validate_rrc` (rislive.py lines 17-23): comma-split the
input, strip whitespace from each token, fail on the first token that does
not match `rrc` + two digits (the error message carries that token),
otherwise return the full token list. -/
def validate_rrc (value : Str) : Except Str (List Str) :=
  match ((splitOnComma value).map trimWs).find? (fun t => !rrcTokenOk t) with
  | some bad => Except.error (mkRrcError bad)
  | none => Except.ok ((splitOnComma value).map trimWs)

/-- The anchor characters stripped by `validate_aspath`: `path.strip` with
the two characters caret and dollar. -/
def aspathAnchors : List Char := ['^', '$']

/-- One inner token of an AS-path expression passes the loop body of
`validate_aspath`: empty tokens are skipped (`if asn:`), nonempty tokens
must parse via `int` into the range 0..4294967295. -/
def aspathTokenOk (asn : Str) : Bool :=
  match asn with
  | [] => true
  | _ =>
    match pyInt? asn with
    | some n => decide (0 ≤ n ∧ n ≤ 4294967295)
    | none => false

/-- A whole AS-path expression passes validation: strip anchor characters
from both ends, split on commas, and require every nonempty token to be an
in-range ASN. -/
def pathExprOk (path : Str) : Bool :=
  (splitOnComma (pyStripChars aspathAnchors path)).all aspathTokenOk

/-- The error message built by `validate_aspath` for an offending
expression. -/
def mkAspathError (path : Str) : Str :=
  ("Invalid AS path format in '").data ++ path ++
    ("'. Must be comma-separated ASNs").data

/-- Embedding of `validate_aspath` (rislive.py lines 35-50): comma-split,
whitespace-strip each expression, fail on the first expression whose
anchor-stripped tokens do not all validate, otherwise return all the
(whitespace-stripped, anchors kept) expressions. -/
def validate_aspath (value : Str) : Except Str (List Str) :=
  match ((splitOnComma value).map trimWs).find? (fun p => !pathExprOk p) with
  | some bad => Except.error (mkAspathError bad)
  | none => Except.ok ((splitOnComma value).map trimWs)

/-- Whether an `Except` result is a success. -/
def exOk {ε α : Type} : Except ε α → Bool
  | Except.ok _ => true
  | Except.error _ => false

/-- The two distinct diagnostics raised by `validate_prefix` (rislive.py
lines 53-65): a token without a mask separator gets the specific
"must include mask in CIDR notation" message, a token the address library
cannot parse gets the generic "Invalid network prefix format" message.
Each carries the offending token. -/
inductive PfxErr where
  | mustIncludeMask : Str → PfxErr
  | invalidFormat : Str → PfxErr
deriving DecidableEq

/-- Loop body of `validate_prefix` over the already-stripped tokens.
`ipOk` is the success predicate of the external standard-library call
`ipaddress.ip_network(tok, strict=False)`: that library is an external
collaborator of this repository, so it appears as an oracle parameter. -/
def validatePfxGo (ipOk : Str → Bool) : List Str → Except PfxErr (List Str)
  | [] => Except.ok []
  | p :: ps =>
    if '/' ∈ p then
      if ipOk p then (validatePfxGo ipOk ps).map (fun l => p :: l)
      else Except.error (PfxErr.invalidFormat p)
    else Except.error (PfxErr.mustIncludeMask p)

/-- Embedding of `validate_prefix` (rislive.py lines 53-65): comma-split,
whitespace-strip each token, reject a token without "/" with the
mask-specific diagnostic, reject an unparsable token with the generic
diagnostic, otherwise collect all tokens in order. -/
def validatePfx (ipOk : Str → Bool) (value : Str) : Except PfxErr (List Str) :=
  validatePfxGo ipOk ((splitOnComma value).map trimWs)

example : validate_aspath (("^123,456,789$").data) =
    Except.ok [("^123").data, ("456").data, ("789$").data] := by rfl
example : exOk (validate_aspath (("^123,abc,789$").data)) = false := by rfl
example : validate_aspath (("$123").data) = Except.ok [("$123").data] := by rfl
example : validate_rrc (("rrc01,rrc99").data) =
    Except.ok [("rrc01").data, ("rrc99").data] := by rfl
example : validate_rrc (("rrc1").data) = Except.error (mkRrcError (("rrc1").data)) := by rfl
example : pyInt? (("1_2").data) = some 12 := by rfl
example : pyInt? (("-3").data) = some (-3) := by rfl
example : pyInt? (("1__2").data) = none := by rfl
example : pyInt? ((" 12 ").data) = some 12 := by rfl

/-- The command-line options record (`argparse.Namespace`) as populated by
`main` (rislive.py lines 143-223).  `filter_host`, `filter_aspath` and
`filter_pfx` (source name `filter_prefix`) come from list-returning
validators; `filter_type`, `filter_key` and `filter_peer` are plain strings
(`filter_type` and `filter_key` are restricted by argparse `choices`).
All optionals default to Python `None`, the flags to `False`. -/
structure Options where
  include_raw : Bool
  more_specific : Bool
  less_specific : Bool
  disable_auto_reconnect : Bool
  filter_host : Option (List Str)
  filter_type : Option Str
  filter_key : Option Str
  filter_peer : Option Str
  filter_aspath : Option (List Str)
  filter_pfx : Option (List Str)
deriving DecidableEq

/-- JSON values appearing in the subscription payload built by
`_get_ris_params`: strings, booleans, arrays of strings (the `prefix`
field) and the flat boolean object used for `socketOptions`. -/
inductive JVal where
  | str : Str → JVal
  | bool : Bool → JVal
  | strArr : List Str → JVal
  | boolObj : List (String × Bool) → JVal
deriving DecidableEq

/-- Python expression `self._options.filter_host[0] if self._options.filter_host else None`:
`None` and the empty list are falsy, otherwise the first element is taken. -/
def hostVal (o : Options) : Option JVal :=
  match o.filter_host with
  | some (h :: _) => some (JVal.str h)
  | _ => none

/-- Python expression `self._options.filter_type`: passed through unchanged. -/
def typeVal (o : Options) : Option JVal := o.filter_type.map JVal.str

/-- Python expression `self._options.filter_key[0] if self._options.filter_key else None`:
`filter_key` is a plain string, so indexing `[0]` yields its FIRST
CHARACTER (as a one-character string), not the whole enum value. -/
def requireVal (o : Options) : Option JVal :=
  match o.filter_key with
  | some (c :: _) => some (JVal.str [c])
  | _ => none

/-- Python expression `self._options.filter_peer`: passed through unchanged. -/
def peerVal (o : Options) : Option JVal := o.filter_peer.map JVal.str

/-- Python expression `",".join(self._options.filter_aspath) if self._options.filter_aspath else None`. -/
def pathVal (o : Options) : Option JVal :=
  match o.filter_aspath with
  | some (p :: ps) => some (JVal.str (List.intercalate ([',']) (p :: ps)))
  | _ => none

/-- Python expression `self._options.filter_prefix if self._options.filter_prefix else None`. -/
def pfxVal (o : Options) : Option JVal :=
  match o.filter_pfx with
  | some (p :: ps) => some (JVal.strArr (p :: ps))
  | _ => none

/-- One optional entry of the `params.update` dict comprehension: kept as a
singleton when the value is not `None`, dropped entirely otherwise. -/
def optEntry (k : String) (v : Option JVal) : List (String × JVal) :=
  match v with
  | some x => [(k, x)]
  | none => []

/-- Embedding of the `data` dictionary built by `_get_ris_params`
(rislive.py lines 102-121): the four always-present feed options followed
by the optional fields that survive the `v is not None` filter, in the
insertion order of the source. -/
def risData (o : Options) : List (String × JVal) :=
  [("socketOptions", JVal.boolObj [("includeRaw", o.include_raw)]),
   ("moreSpecific", JVal.bool o.more_specific),
   ("lessSpecific", JVal.bool o.less_specific),
   ("autoReconnect", JVal.bool (!o.disable_auto_reconnect))]
  ++ optEntry ("host") (hostVal o)
  ++ optEntry ("type") (typeVal o)
  ++ optEntry ("require") (requireVal o)
  ++ optEntry ("peer") (peerVal o)
  ++ optEntry ("path") (pathVal o)
  ++ optEntry ("prefix") (pfxVal o)

/-- The keys of a JSON object, in order. -/
def jKeys (l : List (String × JVal)) : List String := l.map Prod.fst

/-- First-match key lookup in a JSON object. -/
def jLookup (k : String) : List (String × JVal) → Option JVal
  | [] => none
  | (k₁, v) :: rest => if k₁ = k then some v else jLookup k rest

/-- The JSON double-quote character. -/
def jq : Char := Char.ofNat 34

/-- The JSON object-opening brace character. -/
def jlb : Char := Char.ofNat 123

/-- The JSON object-closing brace character. -/
def jrb : Char := Char.ofNat 125

/-- One hexadecimal digit, lowercase, as emitted by `json.dumps`. -/
def hexDigit (n : Nat) : Char :=
  if n < 10 then Char.ofNat (48 + n) else Char.ofNat (87 + n)

/-- Four hexadecimal digits for a `\uXXXX` escape. -/
def hex4 (n : Nat) : Str :=
  [hexDigit (n / 4096 % 16), hexDigit (n / 256 % 16),
   hexDigit (n / 16 % 16), hexDigit (n % 16)]

/-- `json.dumps` escaping of one character (default `ensure_ascii=True`):
quote, backslash and the short control escapes, `\uXXXX` for other control
or non-ASCII characters, surrogate pairs beyond the BMP. -/
def escChar (c : Char) : Str :=
  if c = jq then ['\\', jq]
  else if c = '\\' then ['\\', '\\']
  else if c = '\n' then ['\\', 'n']
  else if c = '\t' then ['\\', 't']
  else if c = '\r' then ['\\', 'r']
  else if c.toNat = 8 then ['\\', 'b']
  else if c.toNat = 12 then ['\\', 'f']
  else if c.toNat < 32 then '\\' :: 'u' :: hex4 c.toNat
  else if c.toNat < 128 then [c]
  else if c.toNat < 65536 then '\\' :: 'u' :: hex4 c.toNat
  else
    ('\\' :: 'u' :: hex4 (55296 + (c.toNat - 65536) / 1024)) ++
      ('\\' :: 'u' :: hex4 (56320 + (c.toNat - 65536) % 1024))

/-- A JSON string literal: quoted, characters escaped. -/
def jstr (s : Str) : Str := jq :: (s.flatMap escChar) ++ [jq]

/-- Serialization of one payload value, following `json.dumps` with its
default separators. -/
def renderJVal : JVal → Str
  | JVal.str s => jstr s
  | JVal.bool b => if b then ("true").data else ("false").data
  | JVal.strArr l => '[' :: List.intercalate ((", ").data) (l.map jstr) ++ [']']
  | JVal.boolObj l =>
    jlb :: List.intercalate ((", ").data)
      (l.map (fun kv => jstr kv.1.data ++ ((": ").data) ++
        (if kv.2 then ("true").data else ("false").data))) ++ [jrb]

/-- Serialization of one `"key": value` pair. -/
def renderPair (kv : String × JVal) : Str :=
  jstr kv.1.data ++ ((": ").data) ++ renderJVal kv.2

/-- Serialization of a JSON object in insertion order. -/
def renderObj (l : List (String × JVal)) : Str :=
  jlb :: List.intercalate ((", ").data) (l.map renderPair) ++ [jrb]

/-- Embedding of `_get_ris_params` (rislive.py lines 102-121): the string
`json.dumps` produces for the wrapper object with `"type": "ris_subscribe"`
and the `data` dictionary. -/
def getRisParams (o : Options) : Str :=
  jlb :: (jstr (("type").data) ++ ((": ").data) ++ jstr (("ris_subscribe").data) ++
    ((", ").data) ++ jstr (("data").data) ++ ((": ").data) ++
    renderObj (risData o)) ++ [jrb]

/-- Options record with every flag false and every filter absent. -/
def defaultOpts : Options :=
  Options.mk false false false false none none none none none none

/-- Options record for a run of `--key announcements` alone. -/
def keyOnlyOpts : Options :=
  Options.mk false false false false none none (some (("announcements").data))
    none none none

/-- Events observable in one execution of `start_streaming`
(rislive.py lines 85-100): opening the connection, sending a payload,
receiving one message. -/
inductive Ev where
  | connect : Ev
  | send : Str → Ev
  | recv : Str → Ev
deriving DecidableEq

/-- Whether an event is a payload send. -/
def isSend : Ev → Bool
  | Ev.send _ => true
  | _ => false

/-- Whether an event is a message reception. -/
def isRecv : Ev → Bool
  | Ev.recv _ => true
  | _ => false

/-- Trace of one `start_streaming` run (rislive.py lines 85-100) on a
connection that delivers `msgs` before ending: the connection opens, the
subscription payload is sent once, then each message is received in turn. -/
def startStreamingTrace (o : Options) (msgs : List Str) : List Ev :=
  Ev.connect :: Ev.send (getRisParams o) :: msgs.map Ev.recv

/-- How one `start_streaming` attempt ends, as observed by the run loop in
`main` (rislive.py lines 245-254). -/
inductive StreamOutcome where
  | cancelled : StreamOutcome
  | connError : StreamOutcome
  | cleanEnd : StreamOutcome
deriving DecidableEq

/-- Embedding of the run loop of `main` (rislive.py lines 245-254),
counting `start_streaming` attempts.  The guard
`while not args.disable_auto_reconnect` is checked before every attempt;
a cancelled attempt breaks out, a connection error or clean stream end
loops again.  The outcome list bounds how long the loop is observed (the
real loop would keep going when it is exhausted). -/
def runLoop (disable : Bool) : List StreamOutcome → Nat
  | [] => 0
  | o :: rest =>
    if disable then 0
    else 1 + (match o with
      | StreamOutcome.cancelled => 0
      | _ => runLoop disable rest)

/-- Embedding of `RipeRisStreamer.disconnect` (rislive.py lines 123-127):
given the stored websocket handle (`some` handle or `none` when no
connection was ever opened), return the boolean result together with the
list of close calls performed. -/
def disconnect (ws : Option Nat) : Bool × List Nat :=
  match ws with
  | some w => (true, [w])
  | none => (true, [])

/-- Options record for a run with a host filter and a key filter set. -/
def hostKeyOpts : Options :=
  Options.mk true false false false (some [("rrc01").data]) none
    (some (("announcements").data)) none none none

example : jKeys (risData keyOnlyOpts) =
    ["socketOptions", "moreSpecific", "lessSpecific", "autoReconnect", "require"] := by rfl
example : jLookup ("require") (risData keyOnlyOpts) = some (JVal.str (("a").data)) := by rfl
example : validatePfx (fun _ => true) (("10.0.0.0").data) =
    Except.error (PfxErr.mustIncludeMask (("10.0.0.0").data)) := by rfl
example : runLoop true [StreamOutcome.cleanEnd, StreamOutcome.cleanEnd] = 0 := by rfl
example : runLoop false [StreamOutcome.cleanEnd, StreamOutcome.cancelled] = 2 := by rfl

/-! Helper lemmas shared by the claim theorems. -/

/-- Mapping a function over an `Except` preserves success. -/
theorem exOk_map {ε α β : Type} (f : α → β) (e : Except ε α) :
    exOk (e.map f) = exOk e := by
  cases e <;> rfl

/-- `validate_aspath` succeeds with the whole stripped token list exactly
when every stripped token passes the per-expression check. -/
theorem validate_aspath_ok_iff (value : Str) :
    validate_aspath value = Except.ok ((splitOnComma value).map trimWs) ↔
      ∀ p ∈ (splitOnComma value).map trimWs, pathExprOk p = true := by
  unfold validate_aspath
  cases h : ((splitOnComma value).map trimWs).find? (fun p => !pathExprOk p) with
  | none =>
    simp only [iff_true_intro rfl, true_iff]
    intro p hp
    have := List.find?_eq_none.mp h p hp
    simpa using this
  | some bad =>
    have hmem : bad ∈ (splitOnComma value).map trimWs := List.mem_of_find?_eq_some h
    have hbad : pathExprOk bad = false := by
      have := List.find?_some h
      simpa using this
    constructor
    · intro he
      exact absurd he (by simp)
    · intro hall
      have := hall bad hmem
      rw [this] at hbad
      exact absurd hbad (by simp)

/-- Stripping a character set from a list made only of such characters
yields the empty list. -/
theorem pyStripChars_all_mem (cs : List Char) (s : Str)
    (h : ∀ c ∈ s, c ∈ cs) : pyStripChars cs s = [] := by
  unfold pyStripChars
  have h1 : s.dropWhile (fun c => decide (c ∈ cs)) = [] :=
    List.dropWhile_eq_nil_iff.mpr (fun c hc => by simpa using h c hc)
  rw [h1]
  rfl

/-- Prepending a character of the stripped set does not change the result
of stripping. -/
theorem pyStripChars_cons (cs : List Char) (c : Char) (s : Str)
    (hc : c ∈ cs) : pyStripChars cs (c :: s) = pyStripChars cs s := by
  unfold pyStripChars
  rw [List.dropWhile_cons_of_pos (by simpa using hc)]

/-- Appending a character of the stripped set does not change the result
of stripping. -/
theorem pyStripChars_concat (cs : List Char) (c : Char) (s : Str)
    (hc : c ∈ cs) : pyStripChars cs (s ++ [c]) = pyStripChars cs s := by
  unfold pyStripChars
  rw [List.dropWhile_append]
  by_cases h : (s.dropWhile (fun c => decide (c ∈ cs))).isEmpty
  · rw [if_pos h]
    have hl : ([c].dropWhile (fun c => decide (c ∈ cs))) = [] := by simp [hc]
    have hs : s.dropWhile (fun c => decide (c ∈ cs)) = [] := by
      simpa using h
    rw [hl, hs]
  · rw [if_neg h]
    rw [List.reverse_append]
    simp only [List.reverse_cons, List.reverse_nil, List.nil_append,
      List.singleton_append]
    rw [List.dropWhile_cons_of_pos (by simpa using hc)]

/-- A leading anchor character is stripped before AS-path token checking. -/
theorem pathExprOk_cons_anchor (c : Char) (s : Str) (hc : c ∈ aspathAnchors) :
    pathExprOk (c :: s) = pathExprOk s := by
  unfold pathExprOk
  rw [pyStripChars_cons aspathAnchors c s hc]

/-- A trailing anchor character is stripped before AS-path token checking. -/
theorem pathExprOk_concat_anchor (c : Char) (s : Str) (hc : c ∈ aspathAnchors) :
    pathExprOk (s ++ [c]) = pathExprOk s := by
  unfold pathExprOk
  rw [pyStripChars_concat aspathAnchors c s hc]

/-- `validatePfxGo` succeeds exactly when every token has a mask separator
and parses. -/
theorem validatePfxGo_ok_iff (ipOk : Str → Bool) (toks : List Str) :
    exOk (validatePfxGo ipOk toks) = true ↔
      ∀ t ∈ toks, '/' ∈ t ∧ ipOk t = true := by
  induction toks with
  | nil => simp [validatePfxGo, exOk]
  | cons p ps ih =>
    by_cases hs : '/' ∈ p
    · by_cases hip : ipOk p = true
      · simp [validatePfxGo, hs, hip, exOk_map, ih]
      · simp [validatePfxGo, hs, hip, exOk]
    · simp [validatePfxGo, hs, exOk]

/-- When every token before `t` is acceptable and `t` lacks the mask
separator, `validatePfxGo` fails with the mask-specific diagnostic for
`t`. -/
theorem validatePfxGo_mask (ipOk : Str → Bool) (pre : List Str) (t : Str)
    (suf : List Str) (hpre : ∀ u ∈ pre, '/' ∈ u ∧ ipOk u = true)
    (ht : '/' ∉ t) :
    validatePfxGo ipOk (pre ++ t :: suf) =
      Except.error (PfxErr.mustIncludeMask t) := by
  induction pre with
  | nil => simp [validatePfxGo, ht]
  | cons p ps ih =>
    have hp := hpre p (by simp)
    have hrec := ih (fun u hu => hpre u (by simp [hu]))
    simp [validatePfxGo, hp.1, hp.2, hrec, Except.map]

/-- Membership of a key in an optional payload entry. -/
theorem mem_jKeys_optEntry (s k : String) (v : Option JVal) :
    s ∈ jKeys (optEntry k v) ↔ v.isSome = true ∧ s = k := by
  cases v <;> simp [optEntry, jKeys]

/-- Presence of the `host` value tracks presence of the validated
collector list. -/
theorem hostVal_isSome (o : Options) (h : o.filter_host ≠ some []) :
    (hostVal o).isSome = o.filter_host.isSome := by
  unfold hostVal
  match hf : o.filter_host with
  | none => rfl
  | some [] => exact absurd hf h
  | some (x :: xs) => rfl

/-- Presence of the `require` value tracks presence of the key filter. -/
theorem requireVal_isSome (o : Options) (h : o.filter_key ≠ some []) :
    (requireVal o).isSome = o.filter_key.isSome := by
  unfold requireVal
  match hf : o.filter_key with
  | none => rfl
  | some [] => exact absurd hf h
  | some (x :: xs) => rfl

/-- Presence of the `path` value tracks presence of the AS-path list. -/
theorem pathVal_isSome (o : Options) (h : o.filter_aspath ≠ some []) :
    (pathVal o).isSome = o.filter_aspath.isSome := by
  unfold pathVal
  match hf : o.filter_aspath with
  | none => rfl
  | some [] => exact absurd hf h
  | some (x :: xs) => rfl

/-- Presence of the `prefix` value tracks presence of the network list. -/
theorem pfxVal_isSome (o : Options) (h : o.filter_pfx ≠ some []) :
    (pfxVal o).isSome = o.filter_pfx.isSome := by
  unfold pfxVal
  match hf : o.filter_pfx with
  | none => rfl
  | some [] => exact absurd hf h
  | some (x :: xs) => rfl

/-- Presence of the `type` value tracks presence of the type filter. -/
theorem typeVal_isSome (o : Options) :
    (typeVal o).isSome = o.filter_type.isSome := by
  unfold typeVal
  cases o.filter_type <;> rfl

/-- Presence of the `peer` value tracks presence of the peer filter. -/
theorem peerVal_isSome (o : Options) :
    (peerVal o).isSome = o.filter_peer.isSome := by
  unfold peerVal
  cases o.filter_peer <;> rfl

/-! Claim theorems. -/

/-- C1: the claim says a run with auto-reconnect disabled still makes at
least one connection/streaming attempt before terminating.  The code's run
loop is `while not args.disable_auto_reconnect`, whose guard is false on
entry when the flag is set, so zero `start_streaming` attempts happen for
every possible sequence of attempt outcomes. -/
theorem c1_zero_attempts_when_disabled (outcomes : List StreamOutcome) :
    runLoop true outcomes = 0 := by
  cases outcomes <;> simp [runLoop]

/-- C2: the claim says the payload's `require` field equals the full enum
string supplied for the key filter.  With `--key announcements` the code
stores the plain string and indexes it with `[0]`, so the payload carries
only its first character `"a"`, which differs from `"announcements"`. -/
theorem c2_require_is_first_character :
    jLookup ("require") (risData keyOnlyOpts) =
        some (JVal.str (("a").data)) ∧
      ("a").data ≠ ("announcements").data :=
  ⟨by rfl, by decide⟩

/-- C3 counterexample: the claim says an expression whose digits are
preceded by `$` is rejected; the code accepts `"$123"` and keeps it
verbatim, because `str.strip` removes any mix of the anchor characters
from both ends. -/
theorem c3_counterexample :
    validate_aspath (("$123").data) = Except.ok [("$123").data] := by rfl

/-- C3 (amended): validation strips all leading and trailing characters
from the anchor set (caret and dollar, in any combination) before checking
that every nonempty comma-separated token is a base-10 integer in
[0, 4294967295]; on acceptance the original (whitespace-trimmed,
anchors included) expressions are what is kept.  In particular a leading
dollar or a trailing caret is also stripped, so such expressions are
accepted, not rejected. -/
theorem c3_anchor_stripping_amended (value : Str) :
    (validate_aspath value = Except.ok ((splitOnComma value).map trimWs) ↔
      ∀ p ∈ (splitOnComma value).map trimWs, pathExprOk p = true) ∧
    (∀ s : Str, pathExprOk ('$' :: s) = pathExprOk s) ∧
    (∀ s : Str, pathExprOk (s ++ ['^']) = pathExprOk s) :=
  ⟨validate_aspath_ok_iff value,
   fun s => pathExprOk_cons_anchor '$' s (by decide),
   fun s => pathExprOk_concat_anchor '^' s (by decide)⟩

/-- C4: the collector validator accepts exactly when every comma-split,
whitespace-trimmed token fully matches `rrc` plus two digits, and a
rejection carries the diagnostic built from the first offending token. -/
theorem c4_rrc_validator (value : Str) :
    (exOk (validate_rrc value) = true ↔
      ∀ t ∈ (splitOnComma value).map trimWs, rrcTokenOk t = true) ∧
    (∀ e, validate_rrc value = Except.error e →
      ∃ t, t ∈ (splitOnComma value).map trimWs ∧ rrcTokenOk t = false ∧
        e = mkRrcError t) := by
  unfold validate_rrc
  cases h : ((splitOnComma value).map trimWs).find? (fun t => !rrcTokenOk t) with
  | none =>
    constructor
    · constructor
      · intro _ t ht
        have := List.find?_eq_none.mp h t ht
        simpa using this
      · intro _
        rfl
    · intro e he
      exact Except.noConfusion he
  | some bad =>
    have hmem : bad ∈ (splitOnComma value).map trimWs :=
      List.mem_of_find?_eq_some h
    have hbad : rrcTokenOk bad = false := by
      have := List.find?_some h
      simpa using this
    constructor
    · constructor
      · intro hfalse
        exact absurd hfalse (by simp [exOk])
      · intro hall
        rw [hall bad hmem] at hbad
        exact absurd hbad (by simp)
    · intro e he
      refine ⟨bad, hmem, hbad, ?_⟩
      injection he with hh
      exact hh.symm

/-- C4 witness: the validator accepts `"rrc01,rrc99"`. -/
theorem c4_rrc_validator_witness :
    exOk (validate_rrc (("rrc01,rrc99").data)) = true :=
  (c4_rrc_validator (("rrc01,rrc99").data)).1.mpr (by decide)

/-- C5: the network-prefix validator accepts exactly when every token has a
mask separator and parses under the (external, non-strict) network parser;
a token without "/" reached by the scan is rejected with the mask-specific
diagnostic, which is distinct from the generic parse-failure diagnostic. -/
theorem c5_pfx_validator (ipOk : Str → Bool) (value : Str) :
    (exOk (validatePfx ipOk value) = true ↔
      ∀ t ∈ (splitOnComma value).map trimWs, '/' ∈ t ∧ ipOk t = true) ∧
    (∀ pre t suf, (splitOnComma value).map trimWs = pre ++ t :: suf →
      (∀ u ∈ pre, '/' ∈ u ∧ ipOk u = true) → '/' ∉ t →
      validatePfx ipOk value = Except.error (PfxErr.mustIncludeMask t)) ∧
    (∀ t : Str, PfxErr.mustIncludeMask t ≠ PfxErr.invalidFormat t) := by
  refine ⟨validatePfxGo_ok_iff ipOk _, fun pre t suf hsplit hpre ht => ?_,
    fun t h => PfxErr.noConfusion h⟩
  unfold validatePfx
  rw [hsplit]
  exact validatePfxGo_mask ipOk pre t suf hpre ht

/-- C5 witness: with an oracle accepting exactly `"10.0.0.0/8"`, the input
`"10.0.0.0/8,10.0.0.0"` fails with the mask-specific diagnostic naming the
second token. -/
theorem c5_pfx_validator_witness :
    validatePfx (fun t => decide (t = ("10.0.0.0/8").data))
        (("10.0.0.0/8,10.0.0.0").data) =
      Except.error (PfxErr.mustIncludeMask (("10.0.0.0").data)) :=
  (c5_pfx_validator (fun t => decide (t = ("10.0.0.0/8").data))
      (("10.0.0.0/8,10.0.0.0").data)).2.1
    [("10.0.0.0/8").data] (("10.0.0.0").data) []
    (by decide) (by decide) (by decide)

/-- C6: for a validated options record (list-valued filters and the key
filter are never the empty value when present), the four boolean feed
options are always in the payload (`includeRaw` inside `socketOptions`),
and each optional field's key appears exactly when the corresponding
option is present. -/
theorem c6_optional_field_presence (o : Options)
    (h1 : o.filter_host ≠ some []) (h2 : o.filter_key ≠ some [])
    (h3 : o.filter_aspath ≠ some []) (h4 : o.filter_pfx ≠ some []) :
    ((("socketOptions" : String) ∈ jKeys (risData o)) ∧
     (("moreSpecific" : String) ∈ jKeys (risData o)) ∧
     (("lessSpecific" : String) ∈ jKeys (risData o)) ∧
     (("autoReconnect" : String) ∈ jKeys (risData o)) ∧
     jLookup ("socketOptions") (risData o) =
       some (JVal.boolObj [("includeRaw", o.include_raw)])) ∧
    ((("host" : String) ∈ jKeys (risData o)) ↔ o.filter_host.isSome = true) ∧
    ((("type" : String) ∈ jKeys (risData o)) ↔ o.filter_type.isSome = true) ∧
    ((("require" : String) ∈ jKeys (risData o)) ↔ o.filter_key.isSome = true) ∧
    ((("peer" : String) ∈ jKeys (risData o)) ↔ o.filter_peer.isSome = true) ∧
    ((("path" : String) ∈ jKeys (risData o)) ↔ o.filter_aspath.isSome = true) ∧
    ((("prefix" : String) ∈ jKeys (risData o)) ↔ o.filter_pfx.isSome = true) := by
  obtain ⟨ir, ms, ls, dar, fh, ft, fk, fp, fa, fx⟩ := o
  rcases fh with _ | ⟨_ | ⟨h0, ht0⟩⟩
  on_goal 2 => exact absurd rfl h1
  all_goals rcases fk with _ | ⟨_ | ⟨k0, kt0⟩⟩
  all_goals first
    | exact absurd rfl h2
    | skip
  all_goals rcases fa with _ | ⟨_ | ⟨a0, at0⟩⟩
  all_goals first
    | exact absurd rfl h3
    | skip
  all_goals rcases fx with _ | ⟨_ | ⟨x0, xt0⟩⟩
  all_goals first
    | exact absurd rfl h4
    | skip
  all_goals rcases ft with _ | t0
  all_goals rcases fp with _ | p0
  all_goals simp [risData, jKeys, optEntry, hostVal, typeVal, requireVal,
    peerVal, pathVal, pfxVal, jLookup]

/-- C6 witness: with a host filter and a key filter set, the `host` key is
present exactly as the option is. -/
theorem c6_optional_field_presence_witness :
    (("host" : String) ∈ jKeys (risData hostKeyOpts)) ↔
      hostKeyOpts.filter_host.isSome = true :=
  (c6_optional_field_presence hostKeyOpts (by decide) (by decide)
    (by decide) (by decide)).2.1

/-- C7: building the subscription payload is a pure function of the options
record, so any two builds from the same record yield identical strings and
the record is untouched. -/
theorem c7_build_deterministic (o₁ o₂ : Options) (h : o₁ = o₂) :
    getRisParams o₁ = getRisParams o₂ := by
  rw [h]

/-- C7 witness: two builds from the default options agree. -/
theorem c7_build_deterministic_witness :
    getRisParams defaultOpts = getRisParams defaultOpts :=
  c7_build_deterministic defaultOpts defaultOpts rfl

/-- C8: on every connection the trace opens with the connect event, the
subscription payload send is the very next event, exactly one send occurs
in the whole trace, and no message reception happens before position 2. -/
theorem c8_subscription_sent_once (o : Options) (msgs : List Str) :
    (startStreamingTrace o msgs)[0]? = some Ev.connect ∧
    (startStreamingTrace o msgs)[1]? = some (Ev.send (getRisParams o)) ∧
    List.countP isSend (startStreamingTrace o msgs) = 1 ∧
    List.countP isRecv (List.take 2 (startStreamingTrace o msgs)) = 0 := by
  refine ⟨by simp [startStreamingTrace], by simp [startStreamingTrace], ?_, ?_⟩
  · have h0 : List.countP isSend (msgs.map Ev.recv) = 0 :=
      List.countP_eq_zero.mpr (fun a ha => by
        obtain ⟨m, _, rfl⟩ := List.mem_map.mp ha
        simp [isSend])
    simp [startStreamingTrace, List.countP_cons, isSend, h0]
  · cases msgs <;> rfl

/-- C9 counterexample: the claim says an expression with no digits at all is
never rejected, but `"abc"` contains no digit and is rejected with the
AS-path diagnostic. -/
theorem c9_counterexample :
    validate_aspath (("abc").data) =
        Except.error (mkAspathError (("abc").data)) ∧
      (("abc").data).all (fun c => !c.isDigit) = true :=
  ⟨by rfl, by rfl⟩

/-- C9 (amended): the AS-path validator never rejects an expression made
only of anchor characters (caret/dollar, including the empty string): every
empty token is skipped, and such expressions are accepted and kept verbatim
in the returned list.  Digit-free expressions with other characters (such
as `"abc"`) are rejected. -/
theorem c9_anchor_only_accepted (value : Str)
    (h : ∀ t ∈ (splitOnComma value).map trimWs, ∀ c ∈ t, c = '^' ∨ c = '$') :
    validate_aspath value = Except.ok ((splitOnComma value).map trimWs) := by
  apply (validate_aspath_ok_iff value).mpr
  intro p hp
  have hall : ∀ c ∈ p, c ∈ aspathAnchors := by
    intro c hc
    rcases h p hp c hc with h' | h' <;> simp [aspathAnchors, h']
  unfold pathExprOk
  rw [pyStripChars_all_mem aspathAnchors p hall]
  rfl

/-- C9 witness: the anchor-only expression `"^$"` is accepted and kept
verbatim. -/
theorem c9_anchor_only_accepted_witness :
    validate_aspath (("^$").data) = Except.ok [("^$").data] :=
  c9_anchor_only_accepted (("^$").data) (by decide)

/-- C10: `disconnect` returns `True` on every call, and when no connection
was ever opened (stored handle absent) it performs no close call and raises
nothing. -/
theorem c10_disconnect_total :
    (∀ ws : Option Nat, (disconnect ws).1 = true) ∧
      disconnect none = (true, ([] : List Nat)) :=
  ⟨fun ws => by cases ws <;> rfl, rfl⟩
